import Mathlib

/-!
Verification of the Creator Studio AI workflow orchestrator, selection
heuristic, video-generation poller and JSON-extraction helper, as a shallow
embedding of the TypeScript source (src/services/geminiService.ts,
src/components/ToolView.tsx, and the App component holding runAutomation).

Conventions of the embedding:
* Promises that may reject are modelled as `Except String` values (the error
  is the thrown message).
* The external generative-AI backend is an opaque parameter (`Backend`): each
  generation function is a function from its inputs to an `Except` result.
* Calls to the progress sink (`onProgress`) are collected, in emission order,
  into a list of `WorkflowProgressUpdate`; calls to the backend are collected
  into a list of `GenCall`.
* JavaScript strings are Lean `String`s, except in the JSON-extraction
  helper where character lists are used to model the regex scan.
-/

/-! ## Data model (src/unnamed types file and geminiService.ts) -/

/-- `TitleScore` from the types file. Numeric scores are modelled as `Nat`
(they are never inspected by the orchestrator). -/
structure TitleScore where
  clarity : Nat
  curiosity : Nat
  specificity : Nat
  keyword : Nat
  length_fit : Nat
  ctr_score : Nat
deriving DecidableEq

/-- `TitleOption` from the types file. -/
structure TitleOption where
  text : String
  style_tags : List String
  keyword_included : Bool
  char_count : Nat
  scores : TitleScore
  rationale : String
deriving DecidableEq

/-- `TopPick` from the types file. -/
structure TopPick where
  text : String
  reason : String
deriving DecidableEq

/-- `TitleGenerationResponse` from the types file.
Note: it has fields `titles`, `top_picks`, `best_title`, `notes` and
no field named `alternatives`. -/
structure TitleGenerationResponse where
  titles : List TitleOption
  top_picks : List TopPick
  best_title : TopPick
  notes : String
deriving DecidableEq

/-- `Chapter` from the types file. -/
structure Chapter where
  title : String
  timestamp : String
deriving DecidableEq

/-- `DescriptionGenerationResponse` from the types file.
No field named `alternatives`. -/
structure DescriptionGenerationResponse where
  description : String
  chapters : List Chapter
  hashtags : List String
  keywords : List String
  pinned_comment : String
deriving DecidableEq

/-- `ScriptMetadata` from the types file. -/
structure ScriptMetadata where
  estimated_duration : String
  tone : String
  language : String
deriving DecidableEq

/-- `ScriptSection` from the types file. -/
structure ScriptSection where
  id : String
  time_range : String
  narration : String
  on_screen_text : String
  visuals_broll : List String
  graphics : List String
  sfx_music : List String
  beats : Option (List String)
deriving DecidableEq

/-- `ScriptCTA` from the types file. -/
structure ScriptCTA where
  time_range : Option String
  narration : String
  on_screen_text : String
  visuals_broll : List String
deriving DecidableEq

/-- `ScriptAlternatives` from the types file. -/
structure ScriptAlternatives where
  hooks : List String
  ctas : List String
  title_ideas : List String
deriving DecidableEq

/-- `ScriptGenerationResponse` from the types file.
Crucially it HAS a field named `alternatives` (of type `ScriptAlternatives`),
so the orchestrator's shape test `'alternatives' in result` is true for it. -/
structure ScriptGenerationResponse where
  metadata : ScriptMetadata
  sections : List ScriptSection
  midroll_cta : ScriptCTA
  final_cta : ScriptCTA
  alternatives : ScriptAlternatives
deriving DecidableEq

/-- `StepStatus` from geminiService.ts:
`'pending' | 'running' | 'selecting' | 'completed' | 'failed'`. -/
inductive StepStatus where
  | pending
  | running
  | selecting
  | completed
  | failed
deriving DecidableEq

/-- Runtime values carried in the `data` field of a progress update
(TS type `StepContent = string | string[] | ListContent | null`, plus the
raw response objects that the workflow passes through the unchecked cast
`result as StepContent`). -/
inductive StepContent where
  | null
  | text (s : String)
  | listOfText (l : List String)
  | selection (alternatives : List String) (chosen : Option String)
  | titlesObj (r : TitleGenerationResponse)
  | descriptionObj (r : DescriptionGenerationResponse)
deriving DecidableEq

/-- `WorkflowProgressUpdate` from geminiService.ts. `data = none` models an
absent (`undefined`) data field. -/
structure WorkflowProgressUpdate where
  stepId : String
  status : StepStatus
  data : Option StepContent
deriving DecidableEq

/-- The generation backend used by the workflow: one entry per generation
function called by `runFullWorkflow` (each an async call that may reject). -/
structure Backend where
  generateTitles : String → Except String TitleGenerationResponse
  generateHooks : String → Except String (List String)
  generateScript : String → Except String ScriptGenerationResponse
  generateDescription : Option String → Option String →
    Except String DescriptionGenerationResponse
  generateTags : String → Except String (List String)

/-- A record of one backend call made by the workflow, with its inputs.
`description` records `(transcript, title)`. -/
inductive GenCall where
  | titles (topic : String)
  | hooks (input : String)
  | script (input : String)
  | description (transcript : Option String) (title : Option String)
  | tags (input : String)
deriving DecidableEq

/-- `runStep` from runFullWorkflow: emits a `running` update, awaits the
call, and on success emits a `completed` update unless the result is a
"selection object" (`typeof result === 'object' && 'alternatives' in result`,
which in this workflow is true exactly for `ScriptGenerationResponse`); on
rejection emits a `failed` update and rethrows.  Returns the emitted updates
along with the propagated result. -/
def runStep {α : Type} (stepId : String) (isSelectionObject : Bool)
    (toData : α → StepContent) :
    Except String α → List WorkflowProgressUpdate × Except String α
  | .ok result =>
      (⟨stepId, .running, none⟩ ::
        (if isSelectionObject then []
         else [⟨stepId, .completed, some (toData result)⟩]),
       .ok result)
  | .error e =>
      ([⟨stepId, .running, none⟩, ⟨stepId, .failed, none⟩], .error e)

/-- The string literal emitted for the script step by runFullWorkflow. -/
def scriptDoneMsg : String :=
  "Script generated successfully. View in the tool for full details."

/-- The body of the `try` block of `runFullWorkflow`: runs the five steps in
order, threading the chosen best title into the downstream steps, emitting
progress updates, and aborting (propagating the error) on the first
rejection.  Returns (updates emitted, backend calls made, try-block result). -/
def workflowBody (topic : String) (B : Backend) :
    List WorkflowProgressUpdate × List GenCall × Except String Unit :=
  match runStep "titles" false StepContent.titlesObj (B.generateTitles topic) with
  | (u1, .error e) => (u1, [GenCall.titles topic], .error e)
  | (u1, .ok titleResponse) =>
    let titles := titleResponse.titles.map TitleOption.text
    let bestTitle := titleResponse.best_title.text
    let u2 := u1 ++
      [⟨"titles", .selecting, some (.selection titles none)⟩,
       ⟨"titles", .completed, some (.selection titles (some bestTitle))⟩]
    match runStep "hooks" false StepContent.listOfText (B.generateHooks bestTitle) with
    | (uh, .error e) =>
        (u2 ++ uh, [GenCall.titles topic, GenCall.hooks bestTitle], .error e)
    | (uh, .ok _hooks) =>
      let u3 := u2 ++ uh
      match runStep "script" true (fun _ => StepContent.null)
          (B.generateScript bestTitle) with
      | (us, .error e) =>
          (u3 ++ us,
           [GenCall.titles topic, GenCall.hooks bestTitle,
            GenCall.script bestTitle], .error e)
      | (us, .ok _scriptResponse) =>
        let u4 := u3 ++ us ++ [⟨"script", .completed, some (.text scriptDoneMsg)⟩]
        match runStep "description" false StepContent.descriptionObj
            (B.generateDescription none (some bestTitle)) with
        | (ud, .error e) =>
            (u4 ++ ud,
             [GenCall.titles topic, GenCall.hooks bestTitle,
              GenCall.script bestTitle,
              GenCall.description none (some bestTitle)], .error e)
        | (ud, .ok descriptionResponse) =>
          let u5 := u4 ++ ud ++
            [⟨"description", .completed, some (.text descriptionResponse.description)⟩]
          match runStep "tags" false StepContent.listOfText
              (B.generateTags bestTitle) with
          | (ut, .error e) =>
              (u5 ++ ut,
               [GenCall.titles topic, GenCall.hooks bestTitle,
                GenCall.script bestTitle,
                GenCall.description none (some bestTitle),
                GenCall.tags bestTitle], .error e)
          | (ut, .ok _tags) =>
              (u5 ++ ut,
               [GenCall.titles topic, GenCall.hooks bestTitle,
                GenCall.script bestTitle,
                GenCall.description none (some bestTitle),
                GenCall.tags bestTitle], .ok ())

/-- The observable outcome of one `runFullWorkflow` invocation. -/
structure RunOutput where
  updates : List WorkflowProgressUpdate
  calls : List GenCall
  result : Except String Unit

/-- `runFullWorkflow` from geminiService.ts: runs `workflowBody` inside a
`try`/`catch` whose catch block only logs, so the returned promise always
resolves. -/
def runFullWorkflow (topic : String) (B : Backend) : RunOutput :=
  match workflowBody topic B with
  | (updates, calls, .ok ()) => ⟨updates, calls, .ok ()⟩
  | (updates, calls, .error _) => ⟨updates, calls, .ok ()⟩

/-- The emitted sequence of (stepId, status) pairs of a run. -/
def statusTrace (topic : String) (B : Backend) : List (String × StepStatus) :=
  (runFullWorkflow topic B).updates.map (fun u => (u.stepId, u.status))

/-- The alternatives list the workflow derives from a titles response. -/
def altsOf (tr : TitleGenerationResponse) : List String :=
  tr.titles.map TitleOption.text

/-- The winning title the workflow derives from a titles response. -/
def bestOf (tr : TitleGenerationResponse) : String := tr.best_title.text

/-- Updates emitted for the titles step when its call succeeds. -/
def uTitlesOk (tr : TitleGenerationResponse) : List WorkflowProgressUpdate :=
  [⟨"titles", .running, none⟩,
   ⟨"titles", .completed, some (.titlesObj tr)⟩,
   ⟨"titles", .selecting, some (.selection (altsOf tr) none)⟩,
   ⟨"titles", .completed, some (.selection (altsOf tr) (some (bestOf tr)))⟩]

/-- Updates emitted for a step whose call rejects. -/
def uStepFail (s : String) : List WorkflowProgressUpdate :=
  [⟨s, .running, none⟩, ⟨s, .failed, none⟩]

/-- Updates emitted for the hooks step when its call succeeds. -/
def uHooksOk (hooks : List String) : List WorkflowProgressUpdate :=
  [⟨"hooks", .running, none⟩, ⟨"hooks", .completed, some (.listOfText hooks)⟩]

/-- Updates emitted for the script step when its call succeeds. -/
def uScriptOk : List WorkflowProgressUpdate :=
  [⟨"script", .running, none⟩, ⟨"script", .completed, some (.text scriptDoneMsg)⟩]

/-- Updates emitted for the description step when its call succeeds. -/
def uDescriptionOk (d : DescriptionGenerationResponse) : List WorkflowProgressUpdate :=
  [⟨"description", .running, none⟩,
   ⟨"description", .completed, some (.descriptionObj d)⟩,
   ⟨"description", .completed, some (.text d.description)⟩]

/-- Updates emitted for the tags step when its call succeeds. -/
def uTagsOk (tags : List String) : List WorkflowProgressUpdate :=
  [⟨"tags", .running, none⟩, ⟨"tags", .completed, some (.listOfText tags)⟩]

/-- The topic used in concrete runs. -/
def topic0 : String := "review of a new laptop"

/-- A concrete generated title option. -/
def titleOption0 : TitleOption :=
  ⟨"Alt A", [], true, 5, ⟨1, 1, 1, 1, 1, 1⟩, "why it works"⟩

/-- A concrete titles response whose `best_title` text does NOT occur among
the texts of `titles` (the backend contract does not force it to). -/
def tr0 : TitleGenerationResponse :=
  ⟨[titleOption0], [], ⟨"Best T", "reason"⟩, "notes"⟩

/-- A concrete script CTA. -/
def cta0 : ScriptCTA := ⟨none, "say this", "show this", []⟩

/-- A concrete script response. -/
def script0 : ScriptGenerationResponse :=
  ⟨⟨"00:07:30", "friendly", "en"⟩, [], cta0, cta0, ⟨[], [], []⟩⟩

/-- A concrete description response. -/
def desc0 : DescriptionGenerationResponse :=
  ⟨"A useful description.", [], [], [], "pin"⟩

/-- A backend on which every generation call succeeds. -/
def okBackend : Backend where
  generateTitles := fun _ => .ok tr0
  generateHooks := fun _ => .ok ["h1", "h2"]
  generateScript := fun _ => .ok script0
  generateDescription := fun _ _ => .ok desc0
  generateTags := fun _ => .ok ["t1"]

/-- A backend whose hooks call rejects (everything else succeeds). -/
def failHooksBackend : Backend :=
  { okBackend with generateHooks := fun _ => .error "network down" }

/-- A step status is terminal (Completed or Failed). -/
def isTerminalB : StepStatus → Bool
  | .completed => true
  | .failed => true
  | _ => false

/-- The statuses emitted for one step, in order. -/
def eventsOf (t : List (String × StepStatus)) (s : String) : List StepStatus :=
  (t.filter (fun p => p.1 == s)).map Prod.snd

/-- Once a terminal status is emitted for a step, no further update for that
step occurs. -/
def noUpdateAfterTerminal : List (String × StepStatus) → Bool
  | [] => true
  | p :: rest =>
    (if isTerminalB p.2 then rest.all (fun q => q.1 != p.1) else true) &&
      noUpdateAfterTerminal rest

/-- No string occurs twice in the list. -/
def allDistinct : List String → Bool
  | [] => true
  | a :: rest => (!rest.contains a) && allDistinct rest

/-- Collapse adjacent duplicates. -/
def dedupAdj : List String → List String
  | [] => []
  | [a] => [a]
  | a :: b :: rest =>
      if a == b then dedupAdj (b :: rest) else a :: dedupAdj (b :: rest)

/-- The fixed step ids of the workflow, in pipeline order. -/
def stepIdsList : List String := ["titles", "hooks", "script", "description", "tags"]

/-- Claim C1 as stated, as a predicate on the emitted (stepId, status)
sequence: every step that runs gets at least one Running update and exactly
one terminal update, with a Running update strictly before the terminal one;
each step's updates are contiguous (all emitted before the next step
starts); and once a terminal update is emitted for a step, no further update
for that step is emitted. -/
def claimC1asStated (t : List (String × StepStatus)) : Bool :=
  stepIdsList.all (fun s =>
    let evs := eventsOf t s
    evs.isEmpty ||
      (evs.contains .running &&
       evs.countP isTerminalB == 1 &&
       (evs.takeWhile (fun st => !(isTerminalB st))).contains .running)) &&
  allDistinct (dedupAdj (t.map Prod.fst)) &&
  noUpdateAfterTerminal t

/-- Pipeline index of a step id (unknown ids sort after all steps). -/
def stepIdx (s : String) : Nat :=
  if s = "titles" then 0
  else if s = "hooks" then 1
  else if s = "script" then 2
  else if s = "description" then 3
  else if s = "tags" then 4
  else 5

/-- The step a backend call belongs to. -/
def callStepId : GenCall → String
  | .titles _ => "titles"
  | .hooks _ => "hooks"
  | .script _ => "script"
  | .description _ _ => "description"
  | .tags _ => "tags"

/-- The run of `runFullWorkflow topic B` reaches step `step` and that step's
underlying generation call rejects. -/
def FailsAt (topic : String) (B : Backend) (step : String) : Prop :=
  (step = "titles" ∧ ∃ e, B.generateTitles topic = .error e) ∨
  (step = "hooks" ∧ ∃ tr e, B.generateTitles topic = .ok tr ∧
    B.generateHooks tr.best_title.text = .error e) ∨
  (step = "script" ∧ ∃ tr hooks e, B.generateTitles topic = .ok tr ∧
    B.generateHooks tr.best_title.text = .ok hooks ∧
    B.generateScript tr.best_title.text = .error e) ∨
  (step = "description" ∧ ∃ tr hooks scr e, B.generateTitles topic = .ok tr ∧
    B.generateHooks tr.best_title.text = .ok hooks ∧
    B.generateScript tr.best_title.text = .ok scr ∧
    B.generateDescription none (some tr.best_title.text) = .error e) ∨
  (step = "tags" ∧ ∃ tr hooks scr d e, B.generateTitles topic = .ok tr ∧
    B.generateHooks tr.best_title.text = .ok hooks ∧
    B.generateScript tr.best_title.text = .ok scr ∧
    B.generateDescription none (some tr.best_title.text) = .ok d ∧
    B.generateTags tr.best_title.text = .error e)

/-- A second concrete title option whose text equals the best title. -/
def titleOptionB : TitleOption :=
  ⟨"Best T", [], true, 6, ⟨1, 1, 1, 1, 1, 1⟩, "also good"⟩

/-- A titles response whose best-title text does occur among the titles. -/
def trMem : TitleGenerationResponse :=
  ⟨[titleOption0, titleOptionB], [], ⟨"Best T", "reason"⟩, "notes"⟩

/-- A backend whose titles response satisfies the membership condition. -/
def memBackend : Backend :=
  { okBackend with generateTitles := fun _ => .ok trMem }

/-- JavaScript `String.prototype.trim` on a character list: whitespace is
removed from both ends. -/
def jsTrim (l : List Char) : List Char :=
  ((l.dropWhile Char.isWhitespace).reverse.dropWhile Char.isWhitespace).reverse

/-- JavaScript `String.prototype.trim` on strings. -/
def jsTrimS (s : String) : String := ⟨jsTrim s.data⟩

/-- `selectBestOption` from geminiService.ts.  The secondary AI call (prompt
construction plus `ai.models.generateContent`) is abstracted as `chooser`;
its successful result is the response text, trimmed (`.trim()`, modelled by
`jsTrimS`) by the source before the membership check.  The second component records whether the external
chooser was invoked. -/
def selectBestOption (chooser : List String → String → Except String String)
    (options : List String) (purpose : String) : Except String String × Bool :=
  match options with
  | [] => (.error "Cannot select from an empty list.", false)
  | [x] => (.ok x, false)
  | x :: _ :: _ =>
    match chooser options purpose with
    | .error e => (.error e, true)
    | .ok t =>
      let choice := jsTrimS t
      (if options.contains choice then .ok choice else .ok x, true)

/-- The chooser used in the C4 witness: it returns a string outside the
candidate list. -/
def badChooser : List String → String → Except String String :=
  fun _ _ => .ok " not one of them "

/-- `WorkflowStep` from the types file (`content: StepContent | null`). -/
structure WorkflowStep where
  id : String
  label : String
  status : StepStatus
  content : StepContent
deriving DecidableEq

/-- The `initialSteps` literal of `runAutomation`. -/
def initialSteps : List WorkflowStep :=
  [⟨"titles", "Generating Viral Titles", .pending, .null⟩,
   ⟨"hooks", "Creating Catchy Hooks", .pending, .null⟩,
   ⟨"script", "Writing Full Script", .pending, .null⟩,
   ⟨"description", "Drafting Video Description", .pending, .null⟩,
   ⟨"tags", "Optimizing SEO Tags", .pending, .null⟩]

/-- The validation message `runAutomation` sets for a falsy topic. -/
def validationMsg : String := "Please enter a video topic to automate."

/-- The observable outcome of one `runAutomation` invocation: the
validation error set (if any), whether the step list was initialized (and
the workflow started), and the progress updates delivered to the callback. -/
structure AutomationOutcome where
  agentError : Option String
  stepsStarted : Bool
  updates : List WorkflowProgressUpdate
deriving DecidableEq

/-- `runAutomation` from the App component.  JavaScript `!topic` is true for
a string exactly when it is empty, so only `""` takes the validation branch;
the second guard is the duplicate-submission check against the React state
`isLoadingAgent`/`agentPrompt`.  Otherwise the step list is initialized and
`runFullWorkflow` runs (its promise never rejects, so the surrounding
`try`/`catch` never sets an error). -/
def runAutomation (topic : String) (isLoadingAgent : Bool) (agentPrompt : String)
    (B : Backend) : AutomationOutcome :=
  if topic = "" then ⟨some validationMsg, false, []⟩
  else if isLoadingAgent && agentPrompt == topic then ⟨none, false, []⟩
  else ⟨none, true, (runFullWorkflow topic B).updates⟩

/-- The body of `onProgressCallback` in `runAutomation`: map over the step
list, replacing the status of the step whose id matches the update (and its
content when the update carries data), leaving every other step unchanged. -/
def applyProgressUpdate (u : WorkflowProgressUpdate)
    (steps : List WorkflowStep) : List WorkflowStep :=
  steps.map fun step =>
    if step.id = u.stepId then
      { step with
          status := u.status,
          content := match u.data with | some d => d | none => step.content }
    else step

/-- `onProgressCallback` from `runAutomation` (the `setWorkflowSteps`
updater): a null previous list stays null, otherwise the map above runs. -/
def onProgressCallback (u : WorkflowProgressUpdate) :
    Option (List WorkflowStep) → Option (List WorkflowStep)
  | none => none
  | some steps => some (applyProgressUpdate u steps)

/-- First index at which `p` occurs as a contiguous sublist (substring
search, leftmost occurrence). -/
def findSub (p : List Char) : List Char → Option Nat
  | [] => if p.isPrefixOf ([] : List Char) then some 0 else none
  | c :: rest =>
    if p.isPrefixOf (c :: rest) then some 0
    else (findSub p rest).map (· + 1)

/-- Substring containment test. -/
def containsSub (s p : List Char) : Bool := (findSub p s).isSome

/-- The credential-invalid signature the poller greps error messages for
(`pollError.message.includes(...)`). -/
def credentialSignature : String := "Requested entity was not found"

/-- Whether an error message matches the credential-invalid signature. -/
def credMatches (msg : String) : Bool :=
  containsSub msg.data credentialSignature.data

/-- Loading message set at the start of every poll tick. -/
def checkingMsg : String := "Checking progress... Your video is being created."

/-- Loading message set when the operation reports done. -/
def finalizingMsg : String := "Finalizing video..."

/-- Loading message set by the transient-error branch of the poll catch. -/
def stillTryingMsg : String := "A temporary issue occurred. Still trying..."

/-- Error set when the credential signature matches. -/
def reauthMsg : String :=
  "Your API key is invalid or has expired. Please select a new one."

/-- Message of the error thrown when the job is done with no download link. -/
def artifactMissingMsg : String :=
  "Video generation finished, but no download link was found."

/-- Loading message set after the start call succeeds. -/
def startedMsg : String :=
  "Video generation started. This process can take several minutes. Please wait..."

/-- A video-generation operation status: `done`, plus the optional result
locator `response?.generatedVideos?.[0]?.video?.uri`. -/
structure Operation where
  done : Bool
  resultUri : Option String
deriving DecidableEq

/-- The component state touched by the poll interval callback:
whether the interval timer is installed (`pollingIntervalRef`), the
`isLoading`, `loadingMessage`, `error`, `hasApiKey` and `generatedContent`
React state, and the list of artifact fetches performed. -/
structure PollerState where
  pollingActive : Bool
  isLoading : Bool
  loadingMessage : String
  error : Option String
  hasApiKey : Bool
  generatedContent : Option String
  fetchCalls : List String
deriving DecidableEq

/-- The `catch (pollError)` block of the poll tick: a credential-signature
error sets the re-auth error, drops the API key, clears the interval and
stops loading; any other error only sets the "still trying" message. -/
def handlePollError (e : String) (s : PollerState) : PollerState :=
  if credMatches e then
    { s with
        error := some reauthMsg, hasApiKey := false,
        pollingActive := false, isLoading := false }
  else { s with loadingMessage := stillTryingMsg }

/-- One tick of the `setInterval` callback in `handleVideoGenerationSubmit`
(a tick only does something while the interval is installed): set the
checking message, await the status check, and on `done` clear the interval,
set the finalizing message, then either fetch the artifact (when a download
link and the API key are present) or throw the artifact-missing error; every
throw inside the tick lands in `handlePollError`. -/
def pollTick (apiKeySet : Bool) (check : Except String Operation)
    (fetchArtifact : String → Except String String) (s : PollerState) :
    PollerState :=
  if s.pollingActive = false then s
  else
    let s0 := { s with loadingMessage := checkingMsg }
    match check with
    | .error e => handlePollError e s0
    | .ok op =>
      if op.done then
        let s1 := { s0 with pollingActive := false, loadingMessage := finalizingMsg }
        match op.resultUri, apiKeySet with
        | some uri, true =>
          match fetchArtifact uri with
          | .ok url =>
              { s1 with
                  generatedContent := some url, isLoading := false,
                  fetchCalls := s1.fetchCalls ++ [uri] }
          | .error e =>
              handlePollError e { s1 with fetchCalls := s1.fetchCalls ++ [uri] }
        | _, _ => handlePollError artifactMissingMsg s1
      else s0

/-- The state right after a successful start call, with the interval
installed. -/
def pollStartState : PollerState :=
  ⟨true, true, startedMsg, none, true, none, []⟩

/-- A concrete error message containing the credential signature. -/
def credErr : String := "Oops: Requested entity was not found."

/-- The topic-like input of a backend call: the single string the generation
prompt is built around (for the description call, its `title` argument). The
titles call has no downstream input. -/
def downstreamInput : GenCall → Option String
  | .titles _ => none
  | .hooks i => some i
  | .script i => some i
  | .description _ t => t
  | .tags i => some i

/-- The literal opening fence of the regex, 8 characters. -/
def openPat : List Char := ("```json\n").data

/-- The literal closing fence of the regex, 4 characters. -/
def closePat : List Char := ("\n```").data

/-- Source embedding of `text.match(/```json\n([\s\S]*?)\n```/)`: the engine
tries successive start positions; where the opening fence matches, the lazy
body runs to the first position where the closing fence matches; if no close
follows, the engine backtracks and moves on.  Returns the captured group of
the leftmost match. -/
def regexFindFence : List Char → Option (List Char)
  | [] => none
  | c :: rest =>
    if openPat.isPrefixOf (c :: rest) then
      match findSub closePat ((c :: rest).drop 8) with
      | some k => some (((c :: rest).drop 8).take k)
      | none => regexFindFence rest
    else regexFindFence rest

/-- `parseJsonFromText` from geminiService.ts, over an abstract `JSON.parse`:
`parse` returns `none` exactly when `JSON.parse` would throw, and the
`try`/`catch` turns that into a `null` result. -/
def parseJsonFromText {α : Type} (parse : List Char → Option α)
    (text : List Char) : Option α :=
  let jsonString :=
    match regexFindFence text with
    | some body => jsTrim body
    | none => jsTrim text
  parse jsonString

/-- Spec-side reading of "the first ```json-fenced block": the first opening
fence of the text, with the body running to the first closing fence after
it; `none` when no complete fenced block exists. -/
def firstFencedBlock (text : List Char) : Option (List Char) :=
  match findSub openPat text with
  | none => none
  | some i =>
    match findSub closePat (text.drop (i + 8)) with
    | none => none
    | some k => some ((text.drop (i + 8)).take k)

/-- A concrete parse function accepting exactly the text "42". -/
def parse0 : List Char → Option Nat :=
  fun l => if l = ("42").data then some 42 else none

/-- A concrete input holding one fenced block surrounded by other text. -/
def text0 : List Char := ("pre ```json\n 42 \n``` post").data

/-! ## Theorems -/

/-- Exhaustive case analysis of one `runFullWorkflow` run: the run either
fails at one of the five steps (with the exact updates and backend calls of
the prefix) or succeeds with the full update/call sequence.  In every case
the returned promise resolves. -/
theorem runFullWorkflow_cases (topic : String) (B : Backend) :
    (∃ e, B.generateTitles topic = .error e ∧
      runFullWorkflow topic B =
        ⟨uStepFail "titles", [.titles topic], .ok ()⟩) ∨
    (∃ tr e, B.generateTitles topic = .ok tr ∧
      B.generateHooks (bestOf tr) = .error e ∧
      runFullWorkflow topic B =
        ⟨uTitlesOk tr ++ uStepFail "hooks",
         [.titles topic, .hooks (bestOf tr)], .ok ()⟩) ∨
    (∃ tr hooks e, B.generateTitles topic = .ok tr ∧
      B.generateHooks (bestOf tr) = .ok hooks ∧
      B.generateScript (bestOf tr) = .error e ∧
      runFullWorkflow topic B =
        ⟨uTitlesOk tr ++ uHooksOk hooks ++ uStepFail "script",
         [.titles topic, .hooks (bestOf tr), .script (bestOf tr)], .ok ()⟩) ∨
    (∃ tr hooks scr e, B.generateTitles topic = .ok tr ∧
      B.generateHooks (bestOf tr) = .ok hooks ∧
      B.generateScript (bestOf tr) = .ok scr ∧
      B.generateDescription none (some (bestOf tr)) = .error e ∧
      runFullWorkflow topic B =
        ⟨uTitlesOk tr ++ uHooksOk hooks ++ uScriptOk ++ uStepFail "description",
         [.titles topic, .hooks (bestOf tr), .script (bestOf tr),
          .description none (some (bestOf tr))], .ok ()⟩) ∨
    (∃ tr hooks scr d e, B.generateTitles topic = .ok tr ∧
      B.generateHooks (bestOf tr) = .ok hooks ∧
      B.generateScript (bestOf tr) = .ok scr ∧
      B.generateDescription none (some (bestOf tr)) = .ok d ∧
      B.generateTags (bestOf tr) = .error e ∧
      runFullWorkflow topic B =
        ⟨uTitlesOk tr ++ uHooksOk hooks ++ uScriptOk ++ uDescriptionOk d ++
           uStepFail "tags",
         [.titles topic, .hooks (bestOf tr), .script (bestOf tr),
          .description none (some (bestOf tr)), .tags (bestOf tr)], .ok ()⟩) ∨
    (∃ tr hooks scr d tags, B.generateTitles topic = .ok tr ∧
      B.generateHooks (bestOf tr) = .ok hooks ∧
      B.generateScript (bestOf tr) = .ok scr ∧
      B.generateDescription none (some (bestOf tr)) = .ok d ∧
      B.generateTags (bestOf tr) = .ok tags ∧
      runFullWorkflow topic B =
        ⟨uTitlesOk tr ++ uHooksOk hooks ++ uScriptOk ++ uDescriptionOk d ++
           uTagsOk tags,
         [.titles topic, .hooks (bestOf tr), .script (bestOf tr),
          .description none (some (bestOf tr)), .tags (bestOf tr)], .ok ()⟩) := by
  rcases h1 : B.generateTitles topic with e | tr
  · refine Or.inl ⟨e, rfl, ?_⟩
    simp [runFullWorkflow, workflowBody, runStep, h1, uStepFail]
  rcases h2 : B.generateHooks tr.best_title.text with e | hooks
  · refine Or.inr (Or.inl ⟨tr, e, rfl, h2, ?_⟩)
    simp [runFullWorkflow, workflowBody, runStep, h1, h2, bestOf,
      uTitlesOk, uStepFail, altsOf]
  rcases h3 : B.generateScript tr.best_title.text with e | scr
  · refine Or.inr (Or.inr (Or.inl ⟨tr, hooks, e, rfl, h2, h3, ?_⟩))
    simp [runFullWorkflow, workflowBody, runStep, h1, h2, h3, bestOf,
      uTitlesOk, uHooksOk, uStepFail, altsOf]
  rcases h4 : B.generateDescription none (some tr.best_title.text) with e | d
  · refine Or.inr (Or.inr (Or.inr (Or.inl ⟨tr, hooks, scr, e, rfl, h2, h3, h4, ?_⟩)))
    simp [runFullWorkflow, workflowBody, runStep, h1, h2, h3, h4, bestOf,
      uTitlesOk, uHooksOk, uScriptOk, uStepFail, altsOf]
  rcases h5 : B.generateTags tr.best_title.text with e | tags
  · refine Or.inr (Or.inr (Or.inr (Or.inr (Or.inl
      ⟨tr, hooks, scr, d, e, rfl, h2, h3, h4, h5, ?_⟩))))
    simp [runFullWorkflow, workflowBody, runStep, h1, h2, h3, h4, h5, bestOf,
      uTitlesOk, uHooksOk, uScriptOk, uDescriptionOk, uStepFail, altsOf]
  · refine Or.inr (Or.inr (Or.inr (Or.inr (Or.inr
      ⟨tr, hooks, scr, d, tags, rfl, h2, h3, h4, h5, ?_⟩))))
    simp [runFullWorkflow, workflowBody, runStep, h1, h2, h3, h4, h5, bestOf,
      uTitlesOk, uHooksOk, uScriptOk, uDescriptionOk, uTagsOk, altsOf]

/-- C1 (counterexample): on a backend where every call succeeds, the emitted
sequence violates the stated contract — the titles step emits two Completed
updates with a Selecting update after the first one, and the description
step emits two Completed updates. -/
theorem claimC1_false_on_okBackend :
    claimC1asStated (statusTrace topic0 okBackend) = false := by decide

/-- C1 (amended): the emitted (stepId, status) sequence of a run is always
one of six explicit sequences — failure at one of the five steps after the
successful prefix, or full success.  Every step that runs emits Running
first and ends with a terminal update before the next step starts, and steps
appear in fixed pipeline order; but the titles step (on success) emits
Running, Completed, Selecting, Completed — a Selecting update after a
terminal one and two terminal updates — and the description step emits two
Completed updates. -/
theorem statusTrace_cases (topic : String) (B : Backend) :
    statusTrace topic B = [("titles", .running), ("titles", .failed)] ∨
    statusTrace topic B =
      [("titles", .running), ("titles", .completed), ("titles", .selecting),
       ("titles", .completed), ("hooks", .running), ("hooks", .failed)] ∨
    statusTrace topic B =
      [("titles", .running), ("titles", .completed), ("titles", .selecting),
       ("titles", .completed), ("hooks", .running), ("hooks", .completed),
       ("script", .running), ("script", .failed)] ∨
    statusTrace topic B =
      [("titles", .running), ("titles", .completed), ("titles", .selecting),
       ("titles", .completed), ("hooks", .running), ("hooks", .completed),
       ("script", .running), ("script", .completed),
       ("description", .running), ("description", .failed)] ∨
    statusTrace topic B =
      [("titles", .running), ("titles", .completed), ("titles", .selecting),
       ("titles", .completed), ("hooks", .running), ("hooks", .completed),
       ("script", .running), ("script", .completed),
       ("description", .running), ("description", .completed),
       ("description", .completed), ("tags", .running), ("tags", .failed)] ∨
    statusTrace topic B =
      [("titles", .running), ("titles", .completed), ("titles", .selecting),
       ("titles", .completed), ("hooks", .running), ("hooks", .completed),
       ("script", .running), ("script", .completed),
       ("description", .running), ("description", .completed),
       ("description", .completed), ("tags", .running), ("tags", .completed)] := by
  rcases runFullWorkflow_cases topic B with
    ⟨e, h1, hE⟩ | ⟨tr, e, h1, h2, hE⟩ | ⟨tr, hooks, e, h1, h2, h3, hE⟩ |
    ⟨tr, hooks, scr, e, h1, h2, h3, h4, hE⟩ |
    ⟨tr, hooks, scr, d, e, h1, h2, h3, h4, h5, hE⟩ |
    ⟨tr, hooks, scr, d, tags, h1, h2, h3, h4, h5, hE⟩
  · refine Or.inl ?_
    simp [statusTrace, hE, uStepFail]
  · refine Or.inr (Or.inl ?_)
    simp [statusTrace, hE, uTitlesOk, uStepFail]
  · refine Or.inr (Or.inr (Or.inl ?_))
    simp [statusTrace, hE, uTitlesOk, uHooksOk, uStepFail]
  · refine Or.inr (Or.inr (Or.inr (Or.inl ?_)))
    simp [statusTrace, hE, uTitlesOk, uHooksOk, uScriptOk, uStepFail]
  · refine Or.inr (Or.inr (Or.inr (Or.inr (Or.inl ?_))))
    simp [statusTrace, hE, uTitlesOk, uHooksOk, uScriptOk, uDescriptionOk, uStepFail]
  · refine Or.inr (Or.inr (Or.inr (Or.inr (Or.inr ?_))))
    simp [statusTrace, hE, uTitlesOk, uHooksOk, uScriptOk, uDescriptionOk, uTagsOk]

/-- If every Running pair of `L` belongs to a step of index at most `k`,
then no step of index above `k` has a Running pair in `L`. -/
theorem notRunningLater {L : List (String × StepStatus)} {k : Nat}
    (h : ∀ p ∈ L, p.2 = StepStatus.running → stepIdx p.1 ≤ k) :
    ∀ s, k < stepIdx s → (s, StepStatus.running) ∉ L := by
  intro s hs hmem
  have hle : stepIdx s ≤ k := h (s, StepStatus.running) hmem rfl
  omega

/-- C2: if the generation call of a step rejects, the orchestrator emits a
Failed update for that step, no later step emits a Running update, no later
step's generation function is called, and `runFullWorkflow`'s promise still
resolves. -/
theorem runFullWorkflow_failure_isolation (topic : String) (B : Backend)
    (step : String) (hF : FailsAt topic B step) :
    (step, StepStatus.failed) ∈ statusTrace topic B ∧
    (∀ s, stepIdx step < stepIdx s → (s, StepStatus.running) ∉ statusTrace topic B) ∧
    (∀ c ∈ (runFullWorkflow topic B).calls, stepIdx (callStepId c) ≤ stepIdx step) ∧
    (runFullWorkflow topic B).result = Except.ok () := by
  rcases hF with ⟨hstep, e, h1⟩ | ⟨hstep, tr, e, h1, h2⟩ |
    ⟨hstep, tr, hooks, e, h1, h2, h3⟩ |
    ⟨hstep, tr, hooks, scr, e, h1, h2, h3, h4⟩ |
    ⟨hstep, tr, hooks, scr, d, e, h1, h2, h3, h4, h5⟩ <;> subst hstep
  · have hE : runFullWorkflow topic B =
        ⟨uStepFail "titles", [.titles topic], .ok ()⟩ := by
      simp [runFullWorkflow, workflowBody, runStep, h1, uStepFail]
    have hT : statusTrace topic B =
        [("titles", .running), ("titles", .failed)] := by
      simp [statusTrace, hE, uStepFail]
    refine ⟨by rw [hT]; decide, by rw [hT]; exact notRunningLater (by decide), ?_,
      by rw [hE]⟩
    rw [hE]
    intro c hc
    simp only [List.mem_cons, List.not_mem_nil, or_false] at hc
    rcases hc with rfl
    simp only [callStepId]
    decide
  · have hE : runFullWorkflow topic B =
        ⟨uTitlesOk tr ++ uStepFail "hooks",
         [.titles topic, .hooks tr.best_title.text], .ok ()⟩ := by
      simp [runFullWorkflow, workflowBody, runStep, h1, h2,
        uTitlesOk, uStepFail, altsOf, bestOf]
    have hT : statusTrace topic B =
        [("titles", .running), ("titles", .completed), ("titles", .selecting),
         ("titles", .completed), ("hooks", .running), ("hooks", .failed)] := by
      simp [statusTrace, hE, uTitlesOk, uStepFail]
    refine ⟨by rw [hT]; decide, by rw [hT]; exact notRunningLater (by decide), ?_,
      by rw [hE]⟩
    rw [hE]
    intro c hc
    simp only [List.mem_cons, List.not_mem_nil, or_false] at hc
    rcases hc with rfl | rfl <;> simp only [callStepId] <;> decide
  · have hE : runFullWorkflow topic B =
        ⟨uTitlesOk tr ++ uHooksOk hooks ++ uStepFail "script",
         [.titles topic, .hooks tr.best_title.text,
          .script tr.best_title.text], .ok ()⟩ := by
      simp [runFullWorkflow, workflowBody, runStep, h1, h2, h3,
        uTitlesOk, uHooksOk, uStepFail, altsOf, bestOf]
    have hT : statusTrace topic B =
        [("titles", .running), ("titles", .completed), ("titles", .selecting),
         ("titles", .completed), ("hooks", .running), ("hooks", .completed),
         ("script", .running), ("script", .failed)] := by
      simp [statusTrace, hE, uTitlesOk, uHooksOk, uStepFail]
    refine ⟨by rw [hT]; decide, by rw [hT]; exact notRunningLater (by decide), ?_,
      by rw [hE]⟩
    rw [hE]
    intro c hc
    simp only [List.mem_cons, List.not_mem_nil, or_false] at hc
    rcases hc with rfl | rfl | rfl <;> simp only [callStepId] <;> decide
  · have hE : runFullWorkflow topic B =
        ⟨uTitlesOk tr ++ uHooksOk hooks ++ uScriptOk ++ uStepFail "description",
         [.titles topic, .hooks tr.best_title.text, .script tr.best_title.text,
          .description none (some tr.best_title.text)], .ok ()⟩ := by
      simp [runFullWorkflow, workflowBody, runStep, h1, h2, h3, h4,
        uTitlesOk, uHooksOk, uScriptOk, uStepFail, altsOf, bestOf]
    have hT : statusTrace topic B =
        [("titles", .running), ("titles", .completed), ("titles", .selecting),
         ("titles", .completed), ("hooks", .running), ("hooks", .completed),
         ("script", .running), ("script", .completed),
         ("description", .running), ("description", .failed)] := by
      simp [statusTrace, hE, uTitlesOk, uHooksOk, uScriptOk, uStepFail]
    refine ⟨by rw [hT]; decide, by rw [hT]; exact notRunningLater (by decide), ?_,
      by rw [hE]⟩
    rw [hE]
    intro c hc
    simp only [List.mem_cons, List.not_mem_nil, or_false] at hc
    rcases hc with rfl | rfl | rfl | rfl <;> simp only [callStepId] <;> decide
  · have hE : runFullWorkflow topic B =
        ⟨uTitlesOk tr ++ uHooksOk hooks ++ uScriptOk ++ uDescriptionOk d ++
           uStepFail "tags",
         [.titles topic, .hooks tr.best_title.text, .script tr.best_title.text,
          .description none (some tr.best_title.text),
          .tags tr.best_title.text], .ok ()⟩ := by
      simp [runFullWorkflow, workflowBody, runStep, h1, h2, h3, h4, h5,
        uTitlesOk, uHooksOk, uScriptOk, uDescriptionOk, uStepFail, altsOf, bestOf]
    have hT : statusTrace topic B =
        [("titles", .running), ("titles", .completed), ("titles", .selecting),
         ("titles", .completed), ("hooks", .running), ("hooks", .completed),
         ("script", .running), ("script", .completed),
         ("description", .running), ("description", .completed),
         ("description", .completed), ("tags", .running), ("tags", .failed)] := by
      simp [statusTrace, hE, uTitlesOk, uHooksOk, uScriptOk, uDescriptionOk,
        uStepFail]
    refine ⟨by rw [hT]; decide, by rw [hT]; exact notRunningLater (by decide), ?_,
      by rw [hE]⟩
    rw [hE]
    intro c hc
    simp only [List.mem_cons, List.not_mem_nil, or_false] at hc
    rcases hc with rfl | rfl | rfl | rfl | rfl <;> simp only [callStepId] <;> decide

/-- C2 witness: on the concrete backend whose hooks call rejects, the hooks
step reports Failed, the script step never reports Running, and the run's
promise resolves. -/
theorem runFullWorkflow_failure_isolation_witness :
    ("hooks", StepStatus.failed) ∈ statusTrace topic0 failHooksBackend ∧
    ("script", StepStatus.running) ∉ statusTrace topic0 failHooksBackend ∧
    (runFullWorkflow topic0 failHooksBackend).result = Except.ok () := by
  have h := runFullWorkflow_failure_isolation topic0 failHooksBackend "hooks"
    (Or.inr (Or.inl ⟨rfl, tr0, "network down", rfl, rfl⟩))
  exact ⟨h.1, h.2.1 "script" (by decide), h.2.2.2⟩

/-- C3 (counterexample): the orchestrator emits the backend's `best_title`
text as `chosen` without validating membership; with a backend whose
best-title text is not among the generated titles' texts, a Completed update
carries a selection whose `chosen` is not a member of `alternatives`. -/
theorem selection_chosen_not_member_on_okBackend :
    (⟨"titles", .completed,
       some (.selection ["Alt A"] (some "Best T"))⟩ : WorkflowProgressUpdate) ∈
        (runFullWorkflow topic0 okBackend).updates ∧
    ("Best T" ∈ (["Alt A"] : List String) → False) := by
  constructor
  · decide
  · decide

/-- C3 (amended): every selection payload emitted by a run carries exactly
the titles' texts as `alternatives` and (when non-null) the backend's
`best_title` text as `chosen`; consequently `chosen` is a member of
`alternatives` exactly when the backend's best-title text occurs among the
titles' texts — the orchestrator itself performs no membership validation. -/
theorem selection_payload_characterization (topic : String) (B : Backend)
    (tr : TitleGenerationResponse) (h : B.generateTitles topic = .ok tr) :
    (∀ u ∈ (runFullWorkflow topic B).updates, ∀ alts chosen,
      u.data = some (.selection alts chosen) →
        alts = altsOf tr ∧ ∀ c, chosen = some c → c = bestOf tr) ∧
    (bestOf tr ∈ altsOf tr →
      ∀ u ∈ (runFullWorkflow topic B).updates, ∀ alts c,
        u.data = some (.selection alts (some c)) → c ∈ alts) := by
  have main : ∀ u ∈ (runFullWorkflow topic B).updates, ∀ alts chosen,
      u.data = some (.selection alts chosen) →
        alts = altsOf tr ∧ ∀ c, chosen = some c → c = bestOf tr := by
    rcases runFullWorkflow_cases topic B with
      ⟨e, h1, hE⟩ | ⟨tr', e, h1, h2, hE⟩ | ⟨tr', hooks, e, h1, h2, h3, hE⟩ |
      ⟨tr', hooks, scr, e, h1, h2, h3, h4, hE⟩ |
      ⟨tr', hooks, scr, d, e, h1, h2, h3, h4, h5, hE⟩ |
      ⟨tr', hooks, scr, d, tags, h1, h2, h3, h4, h5, hE⟩ <;>
      rw [h] at h1
    · cases h1
    · cases h1
      rw [hE]
      intro u hu alts chosen hd
      simp only [uTitlesOk, uStepFail, List.append_assoc, List.cons_append,
        List.nil_append, List.mem_cons, List.not_mem_nil, or_false] at hu
      rcases hu with rfl | rfl | rfl | rfl | rfl | rfl <;>
        first
          | (simp only [Option.some.injEq, StepContent.selection.injEq] at hd
             obtain ⟨rfl, rfl⟩ := hd
             refine ⟨rfl, fun c hc => ?_⟩
             first
               | exact Option.noConfusion hc
               | (injection hc with h9; exact h9.symm))
          | simp_all
    · cases h1
      rw [hE]
      intro u hu alts chosen hd
      simp only [uTitlesOk, uHooksOk, uStepFail, List.append_assoc,
        List.cons_append, List.nil_append, List.mem_cons, List.not_mem_nil,
        or_false] at hu
      rcases hu with rfl | rfl | rfl | rfl | rfl | rfl | rfl | rfl <;>
        first
          | (simp only [Option.some.injEq, StepContent.selection.injEq] at hd
             obtain ⟨rfl, rfl⟩ := hd
             refine ⟨rfl, fun c hc => ?_⟩
             first
               | exact Option.noConfusion hc
               | (injection hc with h9; exact h9.symm))
          | simp_all
    · cases h1
      rw [hE]
      intro u hu alts chosen hd
      simp only [uTitlesOk, uHooksOk, uScriptOk, uStepFail, List.append_assoc,
        List.cons_append, List.nil_append, List.mem_cons, List.not_mem_nil,
        or_false] at hu
      rcases hu with rfl | rfl | rfl | rfl | rfl | rfl | rfl | rfl | rfl | rfl <;>
        first
          | (simp only [Option.some.injEq, StepContent.selection.injEq] at hd
             obtain ⟨rfl, rfl⟩ := hd
             refine ⟨rfl, fun c hc => ?_⟩
             first
               | exact Option.noConfusion hc
               | (injection hc with h9; exact h9.symm))
          | simp_all
    · cases h1
      rw [hE]
      intro u hu alts chosen hd
      simp only [uTitlesOk, uHooksOk, uScriptOk, uDescriptionOk, uStepFail,
        List.append_assoc, List.cons_append, List.nil_append, List.mem_cons,
        List.not_mem_nil, or_false] at hu
      rcases hu with rfl | rfl | rfl | rfl | rfl | rfl | rfl | rfl | rfl | rfl |
        rfl | rfl | rfl <;>
        first
          | (simp only [Option.some.injEq, StepContent.selection.injEq] at hd
             obtain ⟨rfl, rfl⟩ := hd
             refine ⟨rfl, fun c hc => ?_⟩
             first
               | exact Option.noConfusion hc
               | (injection hc with h9; exact h9.symm))
          | simp_all
    · cases h1
      rw [hE]
      intro u hu alts chosen hd
      simp only [uTitlesOk, uHooksOk, uScriptOk, uDescriptionOk, uTagsOk,
        List.append_assoc, List.cons_append, List.nil_append, List.mem_cons,
        List.not_mem_nil, or_false] at hu
      rcases hu with rfl | rfl | rfl | rfl | rfl | rfl | rfl | rfl | rfl | rfl |
        rfl | rfl | rfl <;>
        first
          | (simp only [Option.some.injEq, StepContent.selection.injEq] at hd
             obtain ⟨rfl, rfl⟩ := hd
             refine ⟨rfl, fun c hc => ?_⟩
             first
               | exact Option.noConfusion hc
               | (injection hc with h9; exact h9.symm))
          | simp_all
  refine ⟨main, fun hmem u hu alts c hd => ?_⟩
  rcases main u hu alts (some c) hd with ⟨rfl, hc⟩
  rw [hc c rfl]
  exact hmem

/-- C3 witness: on a backend whose best-title text occurs among the titles'
texts, the chosen value of the emitted Completed selection update is a
member of its alternatives. -/
theorem selection_payload_characterization_witness :
    "Best T" ∈ (["Alt A", "Best T"] : List String) :=
  (selection_payload_characterization topic0 memBackend trMem rfl).2
    (by decide)
    ⟨"titles", .completed, some (.selection ["Alt A", "Best T"] (some "Best T"))⟩
    (by decide) ["Alt A", "Best T"] "Best T" rfl

/-- C4: zero candidates is an error; a single candidate is returned without
invoking the external chooser; any successful result is a member of the
candidate list; and when the chooser's trimmed answer matches no candidate
exactly, the first candidate is returned instead of an error. -/
theorem selectBestOption_contract
    (chooser : List String → String → Except String String)
    (options : List String) (purpose : String) :
    (options = [] → selectBestOption chooser options purpose =
      (.error "Cannot select from an empty list.", false)) ∧
    (∀ x, options = [x] → selectBestOption chooser options purpose = (.ok x, false)) ∧
    (∀ r, (selectBestOption chooser options purpose).1 = .ok r → r ∈ options) ∧
    (∀ x y rest t, options = x :: y :: rest → chooser options purpose = .ok t →
      jsTrimS t ∉ options → selectBestOption chooser options purpose = (.ok x, true)) := by
  refine ⟨?_, ?_, ?_, ?_⟩
  · rintro rfl
    rfl
  · rintro x rfl
    rfl
  · intro r hr
    rcases options with _ | ⟨x, _ | ⟨y, rest⟩⟩
    · simp [selectBestOption] at hr
    · simp [selectBestOption] at hr
      simp [hr]
    · rcases hc : chooser (x :: y :: rest) purpose with e | t
      · simp [selectBestOption, hc] at hr
      · simp only [selectBestOption, hc] at hr
        by_cases hmem : (x :: y :: rest).contains (jsTrimS t)
        · rw [if_pos hmem] at hr
          simp only [Except.ok.injEq] at hr
          rw [hr] at hmem
          exact List.elem_iff.mp hmem
        · rw [if_neg hmem] at hr
          simp only [Except.ok.injEq] at hr
          rw [hr]
          exact List.mem_cons_self _ _
  · intro x y rest t hopt hch hnmem
    subst hopt
    have hcf : (x :: y :: rest).contains (jsTrimS t) = false := by
      by_contra hcon
      exact hnmem (List.elem_iff.mp (Bool.of_not_eq_false hcon))
    simp only [selectBestOption, hch]
    rw [hcf]
    simp

/-- C4 witness: with two candidates and a chooser answering outside the
list, the heuristic falls back to the first candidate (and did invoke the
chooser). -/
theorem selectBestOption_contract_witness :
    selectBestOption badChooser ["a", "b"] "pick" = (.ok "a", true) :=
  (selectBestOption_contract badChooser ["a", "b"] "pick").2.2.2
    "a" "b" [] " not one of them " rfl rfl (by decide)

/-- C5 (counterexample): a whitespace-only topic is NOT rejected — no
validation error is set, the steps are initialized, and progress updates are
emitted. -/
theorem whitespace_topic_not_rejected :
    (runAutomation " " false "" okBackend).agentError = none ∧
    (runAutomation " " false "" okBackend).stepsStarted = true ∧
    (runAutomation " " false "" okBackend).updates ≠ [] := by decide

/-- C5 (amended): only the exactly-empty topic is rejected synchronously
(with the validation message, no steps started and zero progress updates);
any non-empty topic — whitespace-only ones included — passes validation, and
(unless the duplicate-submission guard fires) starts the steps. -/
theorem runAutomation_empty_topic_only (l : Bool) (p : String) (B : Backend)
    (topic : String) :
    (topic = "" → runAutomation topic l p B = ⟨some validationMsg, false, []⟩) ∧
    (topic ≠ "" → ¬(l = true ∧ p = topic) →
      (runAutomation topic l p B).agentError = none ∧
      (runAutomation topic l p B).stepsStarted = true) := by
  constructor
  · rintro rfl
    rfl
  · intro ht hg
    have hguard : (l && p == topic) = false := by
      cases l
      · rfl
      · simp only [Bool.true_and, beq_eq_false_iff_ne, ne_eq]
        exact fun h => hg ⟨rfl, h⟩
    simp [runAutomation, ht, hguard]

/-- C5 witness: the empty topic is rejected with the validation message and
zero updates, while a one-space topic starts the steps. -/
theorem runAutomation_empty_topic_only_witness :
    runAutomation "" false "x" okBackend = ⟨some validationMsg, false, []⟩ ∧
    (runAutomation " " false "x" okBackend).stepsStarted = true :=
  ⟨(runAutomation_empty_topic_only false "x" okBackend "").1 rfl,
   ((runAutomation_empty_topic_only false "x" okBackend " ").2 (by decide)
     (by simp)).2⟩

/-- C9: the callback preserves the list's length (and hence order), modifies
exactly the step whose id equals the update's stepId — status always,
content only when the update carries data — and leaves every other step
untouched. -/
theorem applyProgressUpdate_frame (u : WorkflowProgressUpdate)
    (steps : List WorkflowStep) :
    (applyProgressUpdate u steps).length = steps.length ∧
    ∀ (i : Nat) (s : WorkflowStep), steps[i]? = some s →
      (applyProgressUpdate u steps)[i]? =
        some (if s.id = u.stepId
              then { s with
                       status := u.status,
                       content := match u.data with
                         | some d => d
                         | none => s.content }
              else s) := by
  constructor
  · exact List.length_map _ _
  · intro i s hs
    rw [applyProgressUpdate, List.getElem?_map, hs]
    rfl

/-- C9 witness: applying a hooks-Running update to the initial steps leaves
the list length five and turns exactly the hooks entry to Running with
unchanged content. -/
theorem applyProgressUpdate_frame_witness :
    (applyProgressUpdate ⟨"hooks", .running, none⟩ initialSteps)[1]? =
      some ⟨"hooks", "Creating Catchy Hooks", .running, .null⟩ := by
  have h := (applyProgressUpdate_frame ⟨"hooks", .running, none⟩ initialSteps).2 1
    ⟨"hooks", "Creating Catchy Hooks", .pending, .null⟩ (by decide)
  rw [h]
  decide

/-- C7 (code evaluated at the failing input): when a status check reports
done with no result locator, the interval is cleared and no later tick does
anything — but the thrown artifact-missing error is caught by the tick's own
transient-error handler: the loading message becomes "still trying", `error`
stays unset and `isLoading` stays true, so the specific "finished but no
artifact" error is never surfaced. -/
theorem poller_doneNoUri_error_swallowed :
    pollTick true (.ok ⟨true, none⟩) (fun _ => .error "unused") pollStartState =
      { pollStartState with
          pollingActive := false, loadingMessage := stillTryingMsg } ∧
    pollTick true (.ok ⟨false, none⟩) (fun _ => .error "unused")
        (pollTick true (.ok ⟨true, none⟩) (fun _ => .error "unused")
          pollStartState) =
      pollTick true (.ok ⟨true, none⟩) (fun _ => .error "unused")
        pollStartState := by
  constructor
  · decide
  · decide

/-- C8: while polling is active, a status-check error that does not match
the credential signature never clears the interval (the tick only sets the
"still trying" message, with `error` and `isLoading` untouched), while an
error matching the credential signature clears the interval within that same
tick, sets the re-authentication error, and drops the API key. -/
theorem poller_error_handling (key : Bool) (e : String)
    (f : String → Except String String) (s : PollerState)
    (hActive : s.pollingActive = true) :
    (credMatches e = false →
      (pollTick key (.error e) f s).pollingActive = true ∧
      (pollTick key (.error e) f s).loadingMessage = stillTryingMsg ∧
      (pollTick key (.error e) f s).error = s.error ∧
      (pollTick key (.error e) f s).isLoading = s.isLoading) ∧
    (credMatches e = true →
      (pollTick key (.error e) f s).pollingActive = false ∧
      (pollTick key (.error e) f s).error = some reauthMsg ∧
      (pollTick key (.error e) f s).hasApiKey = false ∧
      (pollTick key (.error e) f s).isLoading = false) := by
  constructor
  · intro hc
    simp [pollTick, hActive, handlePollError, hc]
  · intro hc
    simp [pollTick, hActive, handlePollError, hc]

/-- C8 witness: a timeout-style error leaves the interval installed; the
credential-signature error clears it in the same tick. -/
theorem poller_error_handling_witness :
    (pollTick true (.error "timeout") (fun _ => .error "x")
      pollStartState).pollingActive = true ∧
    (pollTick true (.error credErr) (fun _ => .error "x")
      pollStartState).pollingActive = false :=
  ⟨((poller_error_handling true "timeout" (fun _ => .error "x") pollStartState
      rfl).1 (by decide)).1,
   ((poller_error_handling true credErr (fun _ => .error "x") pollStartState
      rfl).2 (by decide)).1⟩

/-- C6: whenever the titles step succeeds, every downstream backend call of
the run receives exactly the chosen winning title (`best_title.text`) as its
input — and hence never the raw topic, whenever the chosen title differs
from it. -/
theorem downstream_uses_chosen_title (topic : String) (B : Backend)
    (tr : TitleGenerationResponse) (h : B.generateTitles topic = .ok tr) :
    ∀ c ∈ (runFullWorkflow topic B).calls, ∀ i, downstreamInput c = some i →
      i = bestOf tr ∧ (bestOf tr ≠ topic → i ≠ topic) := by
  rcases runFullWorkflow_cases topic B with
    ⟨e, h1, hE⟩ | ⟨tr', e, h1, h2, hE⟩ | ⟨tr', hooks, e, h1, h2, h3, hE⟩ |
    ⟨tr', hooks, scr, e, h1, h2, h3, h4, hE⟩ |
    ⟨tr', hooks, scr, d, e, h1, h2, h3, h4, h5, hE⟩ |
    ⟨tr', hooks, scr, d, tags, h1, h2, h3, h4, h5, hE⟩ <;>
    rw [h] at h1 <;> cases h1 <;> rw [hE] <;> intro c hc i hi <;>
    simp only [List.mem_cons, List.not_mem_nil, or_false] at hc
  · rcases hc with rfl | rfl <;>
      first
        | exact Option.noConfusion hi
        | (simp only [downstreamInput, Option.some.injEq] at hi
           exact ⟨hi.symm, fun hne hiq => hne (hi.trans hiq)⟩)
  · rcases hc with rfl | rfl | rfl <;>
      first
        | exact Option.noConfusion hi
        | (simp only [downstreamInput, Option.some.injEq] at hi
           exact ⟨hi.symm, fun hne hiq => hne (hi.trans hiq)⟩)
  · rcases hc with rfl | rfl | rfl | rfl <;>
      first
        | exact Option.noConfusion hi
        | (simp only [downstreamInput, Option.some.injEq] at hi
           exact ⟨hi.symm, fun hne hiq => hne (hi.trans hiq)⟩)
  · rcases hc with rfl | rfl | rfl | rfl | rfl <;>
      first
        | exact Option.noConfusion hi
        | (simp only [downstreamInput, Option.some.injEq] at hi
           exact ⟨hi.symm, fun hne hiq => hne (hi.trans hiq)⟩)
  · rcases hc with rfl | rfl | rfl | rfl | rfl <;>
      first
        | exact Option.noConfusion hi
        | (simp only [downstreamInput, Option.some.injEq] at hi
           exact ⟨hi.symm, fun hne hiq => hne (hi.trans hiq)⟩)

/-- C6 witness: on the concrete all-success backend the hooks call receives
the chosen title "Best T", which differs from the raw topic. -/
theorem downstream_uses_chosen_title_witness :
    "Best T" = bestOf tr0 ∧ ("Best T" : String) ≠ topic0 := by
  have h := downstream_uses_chosen_title topic0 okBackend tr0 rfl
    (GenCall.hooks "Best T") (by decide) "Best T" rfl
  exact ⟨h.1, h.2 (by decide)⟩

/-- Dropping the head preserves the absence of an occurrence. -/
theorem findSub_cons_none {p : List Char} {c : Char} {rest : List Char}
    (h : findSub p (c :: rest) = none) : findSub p rest = none := by
  by_cases hp : p.isPrefixOf (c :: rest)
  · rw [findSub, if_pos hp] at h
    cases h
  · rw [findSub, if_neg hp] at h
    simpa using h

/-- If a pattern occurs nowhere in a list, it occurs nowhere in any suffix. -/
theorem findSub_drop_none {p l : List Char} (h : findSub p l = none) :
    ∀ m, findSub p (l.drop m) = none := by
  intro m
  induction m generalizing l with
  | zero => simpa using h
  | succ n ih =>
    cases l with
    | nil => simpa using h
    | cons c rest =>
      rw [List.drop_succ_cons]
      exact ih (findSub_cons_none h)

/-- The regex scan finds exactly the first complete fenced block. -/
theorem regexFindFence_eq_firstFencedBlock (text : List Char) :
    regexFindFence text = firstFencedBlock text := by
  induction text with
  | nil => decide
  | cons c rest ih =>
    by_cases hp : openPat.isPrefixOf (c :: rest)
    · have hfs : findSub openPat (c :: rest) = some 0 := by
        rw [findSub, if_pos hp]
      rcases hcl : findSub closePat ((c :: rest).drop 8) with _ | k
      · have h1 : regexFindFence (c :: rest) = regexFindFence rest := by
          rw [regexFindFence, if_pos hp, hcl]
        have hR : firstFencedBlock (c :: rest) = none := by
          simp only [firstFencedBlock, hfs, Nat.zero_add, hcl]
        rw [h1, ih, hR]
        rcases hfo : findSub openPat rest with _ | i
        · simp only [firstFencedBlock, hfo]
        · simp only [firstFencedBlock, hfo]
          have h8 : (c :: rest).drop 8 = rest.drop 7 := rfl
          have hnone : findSub closePat (rest.drop 7) = none := by
            rw [← h8]
            exact hcl
          have hstep := findSub_drop_none hnone (i + 1)
          rw [List.drop_drop] at hstep
          have harith : 7 + (i + 1) = i + 8 := by omega
          rw [harith] at hstep
          rw [hstep]
      · have h1 : regexFindFence (c :: rest) =
            some (((c :: rest).drop 8).take k) := by
          rw [regexFindFence, if_pos hp, hcl]
        have hR : firstFencedBlock (c :: rest) =
            some (((c :: rest).drop 8).take k) := by
          simp only [firstFencedBlock, hfs, Nat.zero_add, hcl]
        rw [h1, hR]
    · have hfs : findSub openPat (c :: rest) =
          (findSub openPat rest).map (· + 1) := by
        rw [findSub, if_neg hp]
      have h1 : regexFindFence (c :: rest) = regexFindFence rest := by
        rw [regexFindFence, if_neg hp]
      rw [h1, ih]
      rcases hfo : findSub openPat rest with _ | i
      · rw [firstFencedBlock, hfo, firstFencedBlock, hfs, hfo]
        rfl
      · rw [firstFencedBlock, hfo, firstFencedBlock, hfs, hfo]
        have hd : (c :: rest).drop (i + 1 + 8) = rest.drop (i + 8) := by
          have harith : i + 1 + 8 = (i + 8) + 1 := by omega
          rw [harith, List.drop_succ_cons]
        simp only [Option.map_some']
        rw [hd]

/-- C10: `parseJsonFromText` is total by construction (the only throwing
operation, `JSON.parse`, is modelled by `parse` returning `none`, and the
`try`/`catch` converts a throw into a `null` result); whenever the text
contains a complete ```json fenced block it parses the trimmed body of the
first such block, otherwise the whole trimmed text; and unparseable input in
either case yields `null` instead of an error. -/
theorem parseJsonFromText_spec {α : Type} (parse : List Char → Option α)
    (text : List Char) :
    (∀ body, firstFencedBlock text = some body →
      parseJsonFromText parse text = parse (jsTrim body)) ∧
    (firstFencedBlock text = none →
      parseJsonFromText parse text = parse (jsTrim text)) ∧
    (∀ body, firstFencedBlock text = some body → parse (jsTrim body) = none →
      parseJsonFromText parse text = none) ∧
    (firstFencedBlock text = none → parse (jsTrim text) = none →
      parseJsonFromText parse text = none) := by
  refine ⟨?_, ?_, ?_, ?_⟩
  · intro body h
    simp only [parseJsonFromText, regexFindFence_eq_firstFencedBlock, h]
  · intro h
    simp only [parseJsonFromText, regexFindFence_eq_firstFencedBlock, h]
  · intro body h hp
    simp only [parseJsonFromText, regexFindFence_eq_firstFencedBlock, h, hp]
  · intro h hp
    simp only [parseJsonFromText, regexFindFence_eq_firstFencedBlock, h, hp]

/-- C10 witness: on the concrete fenced input, the helper parses the
trimmed body of the fenced block. -/
theorem parseJsonFromText_spec_witness :
    parseJsonFromText parse0 text0 = some 42 := by
  have h := (parseJsonFromText_spec parse0 text0).1 ((" 42 ").data) (by decide)
  rw [h]
  decide
